import Mathlib

/-!
Verification of the boundary-reconstruction pipeline of the metrics
repository: the Overpass client (`src/external/overpass/api.py`,
`client.py`, `config.py`), the parsing and geometry utilities
(`src/external/overpass/utils/parser.py`, `normalizer.py`) and the cache
store (`src/external/cache/cache.py`, `impl/redis.py`), shallowly embedded
in Lean.  Coordinates are modelled as exact integers; the two shapely
operations whose computational geometry is not re-implemented (zero-buffer
repair, unary union) are kept abstract and universally quantified.
-/

namespace Metrics

/-! ## Cache store model (src/external/cache/impl/redis.py) -/

/-- Outcome of `json.loads` on the raw cached document in
`RedisCache.delete_city_from_json`: a JSON object is kept as its ordered
key-value entries (city code to serialized district list), a document that
parses to a non-object is `nonobj`, and a document on which `json.loads`
raises is `malformed`.  The raw redis string is modelled by this parse
outcome; `json.dumps` after `json.loads` is the identity on objects. -/
inductive JDoc where
  | obj (entries : List (String × String))
  | nonobj
  | malformed
deriving DecidableEq

/-- Translation of `RedisCache.delete_city_from_json` (redis.py lines
115-138).  The store holds the value under the single cache key (`none` when
the key is absent).  Returns the new store contents and the boolean result:
absent document -> `false`; unparseable document -> delete the whole key,
`false`; non-mapping document or key not present -> `false`, store untouched;
present key -> pop it, write back, `true`. -/
def delete_city_from_json (store : Option JDoc) (city_code : String) :
    Option JDoc × Bool :=
  match store with
  | none => (none, false)
  | some JDoc.malformed => (none, false)
  | some JDoc.nonobj => (some JDoc.nonobj, false)
  | some (JDoc.obj entries) =>
      if city_code ∈ entries.map Prod.fst then
        (some (JDoc.obj (entries.filter (fun p => p.1 != city_code))), true)
      else
        (some (JDoc.obj entries), false)

/-! ## Facade lifecycle model (src/external/overpass/client.py and
src/external/cache/cache.py; the two classes are the same pattern
line-for-line) -/

/-- Class-level state of the `OverpassClient` / `Cache` facade: the lazily
created implementation handle `_impl` (abstract, a unit value) and the
`_is_initialized` flag. -/
structure FacadeState where
  impl : Option Unit
  isInitialized : Bool
deriving DecidableEq

/-- Initial class-level state: `_impl = None`, `_is_initialized = False`. -/
def facadeStart : FacadeState := ⟨none, false⟩

/-- Calls made on the underlying implementation object. -/
inductive ImplCall where
  | implInit
  | implClose
  | implOperation
deriving DecidableEq

/-- Translation of `OverpassClient.init` / `Cache.init` (client.py lines
22-32, cache.py lines 27-35): when already initialized, log a warning and
return with nothing changed; otherwise create the implementation, call its
init, and set the flag.  Returns the new state and the calls made on the
implementation. -/
def facadeInit (s : FacadeState) : FacadeState × List ImplCall :=
  if s.isInitialized = true ∧ s.impl ≠ none then (s, [])
  else (⟨some (), true⟩, [ImplCall.implInit])

/-- Translation of `OverpassClient.close` / `Cache.close` (client.py lines
34-44, cache.py lines 37-47): when not initialized, log a warning and return
with nothing changed; otherwise close the implementation and reset the
state. -/
def facadeClose (s : FacadeState) : FacadeState × List ImplCall :=
  if s.isInitialized = false ∨ s.impl = none then (s, [])
  else (⟨none, false⟩, [ImplCall.implClose])

/-- Error raised by the facades. -/
inductive FacadeErr where
  | notInitialized
deriving DecidableEq

/-- Translation of `OverpassClient._require_impl` / `Cache._require_impl`
(client.py lines 46-52, cache.py lines 49-55): raise a "not initialized"
error when the handle is absent or the flag is down. -/
def require_impl (s : FacadeState) : Except FacadeErr Unit :=
  if s.impl = none ∨ s.isInitialized = false then
    Except.error FacadeErr.notInitialized
  else Except.ok ()

/-- Shape shared by every public facade operation (`OverpassClient.execute`,
`Cache.get_cities_districts_json`, `set_cities_districts_json`,
`delete_cities_districts_json`, `delete_city_from_json`): call
`_require_impl`, and only on success touch the implementation.  Returns the
result together with the implementation calls performed. -/
def facadeOperation (s : FacadeState) : Except FacadeErr Unit × List ImplCall :=
  match require_impl s with
  | Except.error e => (Except.error e, [])
  | Except.ok _ => (Except.ok (), [ImplCall.implOperation])

/-! ## Overpass API client model (src/external/overpass/api.py and
config.py) -/

/-- Default of `OverpassSettings.overpass_rps_limit` (config.py line 32). -/
def overpass_rps_limit : ℚ := 1

/-- Default of `OverpassSettings.overpass_retry_attempts` (config.py line
37). -/
def overpass_retry_attempts : ℕ := 3

/-- Default of `OverpassSettings.overpass_retry_backoff_s` (config.py line
42). -/
def overpass_retry_backoff_s : ℚ := 2

/-- Outcome of one HTTP POST to the Overpass endpoint, as distinguished by
the `api_endpoint` wrapper: a 2xx response carrying a JSON payload (with
whether it is a JSON object, checked by `execute`), an `httpx`
timeout, a connection error, or a non-2xx status raised by
`raise_for_status`. -/
inductive HttpOutcome where
  | ok (isDict : Bool)
  | timeoutErr
  | connectErr
  | httpStatusErr (status : Nat)
deriving DecidableEq

/-- Errors surfaced by `OverpassApiClient.execute` under the `api_endpoint`
wrapper. -/
inductive OverpassError where
  | notInitialized
  | connectionOrTimeout
  | httpStatus (status : Nat)
  | valueErr
deriving DecidableEq

/-- Observable actions of the client: an HTTP request being issued, or a
deliberate delay of the given number of seconds. -/
inductive ClientEvent where
  | httpRequest
  | sleepFor (seconds : ℚ)
deriving DecidableEq

/-- Translation of the `api_endpoint` wrapper applied to
`OverpassApiClient.execute` (api.py lines 19-88 and 139-150): check that the
client is initialized, issue exactly one HTTP request, and map its outcome.
Timeout and connection errors are logged and re-raised as they are; HTTP
status errors are logged and re-raised; a non-dict payload raises a
ValueError inside `execute`.  No retry loop, no backoff sleep and no
rate-limiter wait appears in the source (its docstring marks them as future
work), so the settings `overpass_retry_attempts`, `overpass_retry_backoff_s`
and `overpass_rps_limit` are never consulted.  The world `w` gives the
outcome of the i-th HTTP request the process would issue; the returned trace
lists the events the call actually performs. -/
def executeOnce (initialized : Bool) (w : ℕ → HttpOutcome) (i : ℕ) :
    Except OverpassError Bool × List ClientEvent :=
  if initialized = false then (Except.error OverpassError.notInitialized, [])
  else
    match w i with
    | HttpOutcome.ok isDict =>
        (if isDict then Except.ok true else Except.error OverpassError.valueErr,
         [ClientEvent.httpRequest])
    | HttpOutcome.timeoutErr =>
        (Except.error OverpassError.connectionOrTimeout, [ClientEvent.httpRequest])
    | HttpOutcome.connectErr =>
        (Except.error OverpassError.connectionOrTimeout, [ClientEvent.httpRequest])
    | HttpOutcome.httpStatusErr s =>
        (Except.error (OverpassError.httpStatus s), [ClientEvent.httpRequest])

/-- Event trace of `n` sequential `execute` calls, the i-th call seeing the
i-th outcome of the world. -/
def runCalls (initialized : Bool) (w : ℕ → HttpOutcome) : ℕ → List ClientEvent
  | 0 => []
  | n + 1 => runCalls initialized w n ++ (executeOnce initialized w n).2

/-- Total deliberate delay in a trace, in seconds: requests are instantaneous
in this model, so only `sleepFor` events advance time. -/
def elapsedSleep (tr : List ClientEvent) : ℚ :=
  (tr.map (fun e => match e with | ClientEvent.sleepFor q => q | _ => 0)).sum

/-- Number of HTTP requests in a trace. -/
def requestCount (tr : List ClientEvent) : ℕ :=
  tr.count ClientEvent.httpRequest

/-- World in which every HTTP request times out. -/
def timeoutWorld : ℕ → HttpOutcome := fun _ => HttpOutcome.timeoutErr

/-- World in which every HTTP request succeeds with a JSON object. -/
def okWorld : ℕ → HttpOutcome := fun _ => HttpOutcome.ok true

/-! ## Metadata extractor model
(src/external/overpass/utils/parser.py, `parse_districts_metadata`) -/

/-- An element of the Overpass response, as the fields
`parse_districts_metadata` reads from the raw dict: `elem.get("type")`,
`elem.get("id")` and `elem.get("tags")` defaulting to an empty object.
Tags are the JSON object entries (unique keys). -/
structure OsmElement where
  type_ : Option String
  id : Option Int
  tags : List (String × String)
deriving DecidableEq

/-- Python `tags.get(k)`: the value of the first entry with key `k`. -/
def tagsGet (tags : List (String × String)) (k : String) : Option String :=
  (tags.find? (fun p => p.1 == k)).map Prod.snd

/-- Python `a or b` on optional strings: `None` and the empty string are
falsy, so either falls through to `b`. -/
def orStr (a b : Option String) : Option String :=
  match a with
  | some s => if s = "" then b else some s
  | none => b

/-- The name chain of parser.py lines 47-52:
`tags.get("name") or tags.get("name:ru") or tags.get("official_name") or
tags.get("alt_name")`. -/
def resolveName (tags : List (String × String)) : Option String :=
  orStr (tagsGet tags "name")
    (orStr (tagsGet tags "name:ru")
      (orStr (tagsGet tags "official_name") (tagsGet tags "alt_name")))

/-- Python `if not name` applied to an optional string: drop `None` and the
empty string, keep anything else. -/
def pyTruthy (o : Option String) : Option String :=
  match o with
  | none => none
  | some s => if s = "" then none else some s

/-- One district record as appended by `parse_districts_metadata`. -/
structure District where
  osm_relation_id : Option Int
  osm_type : Option String
  name : String
deriving DecidableEq

/-- Body of the loop of `parse_districts_metadata` (parser.py lines 33-66)
for one element: the `continue` guards in source order, then the name chain,
then Python `if not name: continue` (dropping `None` and the empty
string). -/
def keepElement (elem : OsmElement) : Option District :=
  if elem.type_ ≠ some "relation" then none
  else if tagsGet elem.tags "boundary" ≠ some "administrative" then none
  else if ¬ (tagsGet elem.tags "admin_level" = some "9"
             ∨ tagsGet elem.tags "admin_level" = some "10") then none
  else
    (pyTruthy (resolveName elem.tags)).map
      (fun s => (⟨elem.id, elem.type_, s⟩ : District))

/-- Translation of `parse_districts_metadata` (parser.py lines 11-69): the
append-inside-loop with `continue` guards is a filterMap over the `elements`
of the response. -/
def parse_districts_metadata (elements : List OsmElement) : List District :=
  elements.filterMap keepElement

/-- The claim side of C3, written from the spec text alone: keep relations
with `boundary=administrative` and admin_level 9 or 10, and resolve the name
first-PRESENT-wins over the ordered keys (presence of the tag key decides,
regardless of the value being empty); relations with none of the name keys
present are dropped. -/
def keepElementFirstPresent (elem : OsmElement) : Option District :=
  if elem.type_ = some "relation"
      ∧ tagsGet elem.tags "boundary" = some "administrative"
      ∧ (tagsGet elem.tags "admin_level" = some "9"
         ∨ tagsGet elem.tags "admin_level" = some "10") then
    (((["name", "name:ru", "official_name", "alt_name"].filterMap
        (fun k => tagsGet elem.tags k)).head?).map
      (fun n => ⟨elem.id, elem.type_, n⟩) : Option District)
  else none

/-- Claim-side extractor for C3 (first-present-wins name resolution). -/
def extractDistrictsFirstPresent (elements : List OsmElement) : List District :=
  elements.filterMap keepElementFirstPresent

/-- The amended claim side of C3: as the spec says, but the name is the first
NON-EMPTY value over the ordered keys, and a relation whose name tags are all
absent or empty is dropped. -/
def keepElementFirstNonEmpty (elem : OsmElement) : Option District :=
  if elem.type_ = some "relation"
      ∧ tagsGet elem.tags "boundary" = some "administrative"
      ∧ (tagsGet elem.tags "admin_level" = some "9"
         ∨ tagsGet elem.tags "admin_level" = some "10") then
    (((["name", "name:ru", "official_name", "alt_name"].filterMap
        (fun k => tagsGet elem.tags k)).find? (fun s => s != "")).map
      (fun n => ⟨elem.id, elem.type_, n⟩) : Option District)
  else none

/-- Amended-claim-side extractor for C3 (first-non-empty name resolution). -/
def extractDistrictsFirstNonEmpty (elements : List OsmElement) : List District :=
  elements.filterMap keepElementFirstNonEmpty

/-- Element on which the code and the literal claim C3 disagree: the primary
name tag is present but empty, the localized name is "X". -/
def emptyNameElement : OsmElement :=
  ⟨some "relation", some 1,
   [("boundary", "administrative"), ("admin_level", "9"),
    ("name", ""), ("name:ru", "X")]⟩

/-! ## Geometry model
(src/external/overpass/utils/parser.py `parse_ways_to_geometry` and
normalizer.py `normalize_geometry`).  Coordinates are exact integers: a
machine float is an exact binary rational, and scaling all coordinates by a
common denominator changes no predicate the source evaluates (equality,
orientation signs, on-segment tests, zero-area tests and length comparisons
are all invariant under a common positive scaling), so integer coordinates
model float input faithfully.  The shapely primitives the source exercises
(LineString validity, linemerge, polygonize, ring and polygon validity, path
length, WKT) are modelled concretely below, while `buffer(0)` and
`unary_union` stay abstract. -/

/-- A coordinate, `(lon, lat)` as the source builds them. -/
abbrev Coord := ℤ × ℤ

/-- A shapely LineString as its ordered coordinates. -/
abbrev Line := List Coord

/-- One `\x7blat, lon\x7d` node of an Overpass way geometry. -/
structure OsmNode where
  lat : ℤ
  lon : ℤ
deriving DecidableEq

/-- A way element as read by `parse_ways_to_geometry`: its
`way.get("type")` and its `way.get("geometry")` node list. -/
structure WayElement where
  type_ : Option String
  geometry : List OsmNode
deriving DecidableEq

/-- Twice the signed cross product of vectors `o -> a` and `o -> b`. -/
def cross (o a b : Coord) : ℤ :=
  (a.1 - o.1) * (b.2 - o.2) - (a.2 - o.2) * (b.1 - o.1)

/-- Point `p` lies on the closed segment from `a` to `b`. -/
def onSegment (a b p : Coord) : Bool :=
  (cross a b p == 0)
    && decide (min a.1 b.1 ≤ p.1) && decide (p.1 ≤ max a.1 b.1)
    && decide (min a.2 b.2 ≤ p.2) && decide (p.2 ≤ max a.2 b.2)

/-- The closed segments from `a` to `b` and from `c` to `d` share at least
one point (standard orientation test with collinear endpoint cases). -/
def segsIntersect (a b c d : Coord) : Bool :=
  let d1 := cross c d a
  let d2 := cross c d b
  let d3 := cross a b c
  let d4 := cross a b d
  (((decide (0 < d1) && decide (d2 < 0)) || (decide (d1 < 0) && decide (0 < d2)))
    && ((decide (0 < d3) && decide (d4 < 0)) || (decide (d3 < 0) && decide (0 < d4))))
  || onSegment c d a || onSegment c d b || onSegment a b c || onSegment a b d

/-- Consecutive coordinate pairs of a line: its segments. -/
def segsOf (l : Line) : List (Coord × Coord) := l.zip l.tail

/-- Twice the shoelace signed area of a closed coordinate ring. -/
def doubleArea (l : Line) : ℤ :=
  ((segsOf l).map (fun s => s.1.1 * s.2.2 - s.2.1 * s.1.2)).sum

/-- Segment of an edge list at index `i` (out of range gives a degenerate
segment, never hit on the index ranges used below). -/
def edgeD (es : List (Coord × Coord)) (i : ℕ) : Coord × Coord :=
  es.getD i ((0, 0), (0, 0))

/-- No two non-adjacent edges of the closed ring `l` meet (adjacency wraps
around the closing point). -/
def nonAdjacentEdgesOk (l : Line) : Bool :=
  let es := segsOf l
  let n := es.length
  (List.range n).all (fun i => (List.range n).all (fun j =>
    if i < j ∧ j ≠ i + 1 ∧ ¬(i = 0 ∧ j = n - 1) then
      !(segsIntersect (edgeD es i).1 (edgeD es i).2 (edgeD es j).1 (edgeD es j).2)
    else true))

/-- Each pair of adjacent edges of the closed ring `l` meets only at its
shared vertex: neither edge backtracks into the interior of the other. -/
def adjacentEdgesOk (l : Line) : Bool :=
  let es := segsOf l
  let n := es.length
  (List.range n).all (fun i =>
    let e1 := edgeD es i
    let e2 := edgeD es ((i + 1) % n)
    !(onSegment e1.1 e1.2 e2.2 && (e2.2 != e1.2))
      && !(onSegment e2.1 e2.2 e1.1 && (e1.1 != e2.1)))

/-- The closed coordinate sequence `l` is a simple ring: at least four
coordinates, first equals last, vertices pairwise distinct apart from the
closing repeat, non-adjacent edges disjoint, adjacent edges meeting only at
their shared vertex, and non-zero enclosed area.  This models GEOS ring
validity (and LineString simplicity of a closed line) over exact
coordinates. -/
def ringSimpleClosed (l : Line) : Bool :=
  decide (4 ≤ l.length)
    && (l.head? == l.getLast?)
    && decide l.dropLast.Nodup
    && nonAdjacentEdgesOk l
    && adjacentEdgesOk l
    && (doubleArea l != 0)

/-- Model of shapely `LineString.is_ring`: the line is closed and simple. -/
def isRing (l : Line) : Bool := ringSimpleClosed l

/-- Model of shapely `LineString.is_valid and not LineString.is_empty` for a
line built from at least two coordinates: it has at least two coordinates
and is not degenerate to a single repeated point. -/
def lineUsable (l : Line) : Bool :=
  decide (2 ≤ l.length)
    && !(l.all (fun c => c == l.head?.getD (0, 0)))

/-- A polygon, kept as its closed exterior shell (the source only ever
builds shells from rings; holes do not occur on the modelled paths). -/
structure Poly where
  shell : Line
deriving DecidableEq

/-- Model of the shapely `Polygon(coords)` constructor: the shell is closed
by appending the first coordinate when the sequence is not already
closed. -/
def closeRing (l : Line) : Line :=
  match l.head?, l.getLast? with
  | some a, some b => if a = b then l else l ++ [a]
  | _, _ => l

/-- Model of shapely `Polygon.is_valid` for a single-shell polygon: the
shell is a simple closed ring. -/
def polyIsValid (p : Poly) : Bool := ringSimpleClosed p.shell

/-- Model of shapely `Polygon.is_empty`. -/
def polyIsEmpty (p : Poly) : Bool := p.shell.isEmpty

/-- A shapely geometry as the source discriminates them: a Polygon, a
MultiPolygon, or anything else (LineString, Point, GeometryCollection,
...). -/
inductive Geom where
  | poly (p : Poly)
  | multi (ps : List Poly)
  | gother
deriving DecidableEq

/-- Validity of a geometry (`geom.is_valid`): a polygon by its shell; a
multi-polygon when non-empty with valid parts (pairwise interior disjointness
of parts is not modelled; no theorem below depends on it); validity of other
geometry types is immaterial on the modelled paths. -/
def geomIsValid : Geom → Bool
  | Geom.poly p => polyIsValid p
  | Geom.multi ps => !ps.isEmpty && ps.all polyIsValid
  | Geom.gother => false

/-- Emptiness of a geometry (`geom.is_empty`). -/
def geomIsEmpty : Geom → Bool
  | Geom.poly p => polyIsEmpty p
  | Geom.multi ps => ps.all polyIsEmpty
  | Geom.gother => true

/-- Endpoints of a line (one element when the line is a single point). -/
def endpointsOf (l : Line) : List Coord :=
  l.head?.toList ++ l.getLast?.toList

/-- How many line endpoints of the collection lie at `p` (a closed line
contributes two at its shared endpoint). -/
def endpointDegree (ls : List Line) (p : Coord) : ℕ :=
  (ls.map (fun l => (if l.head? = some p then 1 else 0)
    + (if l.getLast? = some p then 1 else 0))).sum

/-- Join two lines at the shared endpoint `p`, reversing as needed so the
first ends and the second starts at `p`. -/
def joinAt (l1 l2 : Line) (p : Coord) : Line :=
  let a := if l1.getLast? = some p then l1 else l1.reverse
  let b := if l2.head? = some p then l2 else l2.reverse
  a ++ b.tail

/-- Search for a pair of distinct lines sharing an endpoint of total degree
two (GEOS LineMerger joins chains only through such nodes). -/
def findJoin (ls : List Line) : Option (ℕ × ℕ × Coord) :=
  (List.range ls.length).findSome? (fun i =>
    (List.range ls.length).findSome? (fun j =>
      if i = j then none
      else
        (endpointsOf (ls.getD i [])).findSome? (fun p =>
          if (endpointsOf (ls.getD j [])).contains p
              && (endpointDegree ls p == 2)
          then some (i, j, p) else none)))

/-- Remove the elements at positions `i` and `j`. -/
def removeTwo (ls : List Line) (i j : ℕ) : List Line :=
  (ls.enum.filter (fun p => p.1 ≠ i ∧ p.1 ≠ j)).map Prod.snd

/-- One merging step: join some joinable pair, or report that none exists. -/
def mergeOnce (ls : List Line) : Option (List Line) :=
  match findJoin ls with
  | none => none
  | some (i, j, p) =>
      some (joinAt (ls.getD i []) (ls.getD j []) p :: removeTwo ls i j)

/-- Fuel-bounded iteration of `mergeOnce` (each step removes a line, so the
initial list length is enough fuel). -/
def linemergeAux : ℕ → List Line → List Line
  | 0, ls => ls
  | fuel + 1, ls =>
      match mergeOnce ls with
      | none => ls
      | some ls2 => linemergeAux fuel ls2

/-- Model of `shapely.ops.linemerge` on a MultiLineString: repeatedly join
lines at shared endpoints of degree two until no join applies.  A single
resulting chain corresponds to the LineString return, several to the
MultiLineString return; the source treats both uniformly as the list
`merged_lines`. -/
def linemerge (ls : List Line) : List Line := linemergeAux ls.length ls

/-- Model of `shapely.ops.polygonize` specialised to how this source uses
it: the input lines are maximal post-linemerge chains, so every line that is
a valid closed ring yields one polygon, and open or self-crossing lines
yield nothing (polygonize does not node its input). -/
def polygonizeModel (ls : List Line) : List Poly :=
  ls.filterMap (fun l => if polyIsValid ⟨l⟩ then some ⟨l⟩ else none)

/-- Lines 91-104 of parser.py: keep elements of type "way" with at least two
geometry nodes, build `(lon, lat)` coordinate lines, and keep the valid
non-empty ones. -/
def wayLines (ways : List WayElement) : List Line :=
  ways.filterMap (fun way =>
    if way.type_ ≠ some "way" then none
    else if way.geometry.length < 2 then none
    else
      let coords := way.geometry.map (fun node => (node.lon, node.lat))
      if lineUsable coords then some coords else none)

/-- Euclidean path length of a line (shapely `LineString.length`): the sum
of its segment lengths in coordinate units. -/
noncomputable def pathLength (l : Line) : ℝ :=
  ((segsOf l).map (fun s =>
    Real.sqrt ((((s.2.1 - s.1.1 : ℤ) : ℝ)) ^ 2 + (((s.2.2 - s.1.2 : ℤ) : ℝ)) ^ 2))).sum

open Classical in
/-- Python `max(merged_lines, key=lambda l: l.length)`: fold keeping the
current element, replacing it only on strictly greater key, so the first
maximum wins. -/
noncomputable def maxByLength (ls : List Line) : Line :=
  match ls with
  | [] => []
  | x :: xs => xs.foldl (fun acc l => if pathLength acc < pathLength l then l else acc) x

/-- The two shapely operations whose computational geometry this development
does not re-implement: the zero-distance buffer repair `buffer(0)` and
`shapely.ops.unary_union`.  The translations below are parametric in them and
every theorem holds for an arbitrary interpretation. -/
structure GeomOps where
  buffer0 : Geom → Geom
  unaryUnion : List Geom → Geom

/-- Per-polygon repair stage of parser.py lines 144-153: an invalid polygon
gets one `buffer(0)`; keep the results that are valid and non-empty. -/
def repairStage (ops : GeomOps) (polys : List Poly) : List Geom :=
  polys.filterMap (fun p =>
    let g := Geom.poly p
    let g2 := if !(geomIsValid g) then ops.buffer0 g else g
    if geomIsValid g2 && !(geomIsEmpty g2) then some g2 else none)

/-- Keep the polygon constituents of a geometry list (the `MultiPolygon(
valid_polygons)` constructor of the unexpected-union-type branch). -/
def polyParts (gs : List Geom) : List Poly :=
  gs.filterMap (fun g => match g with | Geom.poly p => some p | _ => none)

/-- Translation of `parse_ways_to_geometry` (parser.py lines 72-175): build
lines from the ways, linemerge them, polygonize the merged lines; when zero
polygons result, fall back to the longest merged line, returning it
force-closed when it is a ring or its first and last coordinates coincide
and the resulting polygon is valid, else null; when polygons result, repair
each with `buffer(0)` as needed, return a single survivor as-is, and union
several survivors, passing a Polygon or MultiPolygon union through and
wrapping any unexpected union type over the survivors.  The source's locals
`lines`, `merged_lines` and `polygons` are written inline. -/
noncomputable def parse_ways_to_geometry (ops : GeomOps) (ways : List WayElement) :
    Option Geom :=
  if ways.isEmpty then none
  else if (wayLines ways).isEmpty then none
  else if (polygonizeModel (linemerge (wayLines ways))).isEmpty then
    if isRing (maxByLength (linemerge (wayLines ways)))
        || ((maxByLength (linemerge (wayLines ways))).head?
            == (maxByLength (linemerge (wayLines ways))).getLast?) then
      if polyIsValid ⟨closeRing (maxByLength (linemerge (wayLines ways)))⟩ then
        some (Geom.poly ⟨closeRing (maxByLength (linemerge (wayLines ways)))⟩)
      else none
    else none
  else
    match repairStage ops (polygonizeModel (linemerge (wayLines ways))) with
    | [] => none
    | [g] => some g
    | g1 :: g2 :: gs =>
        match ops.unaryUnion (g1 :: g2 :: gs) with
        | Geom.poly u => some (Geom.poly u)
        | Geom.multi us => some (Geom.multi us)
        | Geom.gother => some (Geom.multi (polyParts (g1 :: g2 :: gs)))

/-- WKT of one coordinate. -/
def wktCoord (c : Coord) : String :=
  toString c.1 ++ " " ++ toString c.2

/-- WKT of one ring. -/
def wktRing (l : Line) : String :=
  "(" ++ String.intercalate ", " (l.map wktCoord) ++ ")"

/-- WKT body of one polygon (shell only, as in the modelled pipeline). -/
def wktPolyBody (p : Poly) : String :=
  "(" ++ wktRing p.shell ++ ")"

/-- Model of `MultiPolygon.wkt`: the canonical multi-polygon text. -/
def wktOfMulti (ps : List Poly) : String :=
  "MULTIPOLYGON " ++ ("(" ++ String.intercalate ", " (ps.map wktPolyBody) ++ ")")

/-- Translation of `normalize_geometry` (normalizer.py lines 10-34): one
`buffer(0)` repair when the input is invalid; a bare Polygon is wrapped as a
one-element MultiPolygon; anything that is then not a MultiPolygon yields
null; otherwise the WKT text is returned. -/
def normalize_geometry (ops : GeomOps) (geom : Geom) : Option String :=
  let geom2 := if !(geomIsValid geom) then ops.buffer0 geom else geom
  match geom2 with
  | Geom.poly p => some (wktOfMulti [p])
  | Geom.multi ps => some (wktOfMulti ps)
  | Geom.gother => none

/-- Interpretation of the abstract shapely operations used by witnesses:
`buffer(0)` as the identity and a union that never returns a polygonal
type.  Theorems quantify over all interpretations, so any concrete one
serves. -/
def plainOps : GeomOps := ⟨fun g => g, fun _ => Geom.gother⟩

/-- Way whose line is a closed figure-eight: coordinates
(0,0), (2,2), (2,0), (0,2), (0,0); the two diagonal edges cross at (1,1),
so no polygon can be assembled from it, it is closed, and force-closing it
gives an invalid (self-intersecting) polygon.  Nodes are (lat, lon), so the
lat/lon values are chosen to give those (lon, lat) coordinates. -/
def figureEightWay : WayElement :=
  ⟨some "way", [⟨0, 0⟩, ⟨2, 2⟩, ⟨0, 2⟩, ⟨2, 0⟩, ⟨0, 0⟩]⟩

/-- Way tracing the closed unit square
(0,0), (1,0), (1,1), (0,1), (0,0). -/
def squareWay : WayElement :=
  ⟨some "way", [⟨0, 0⟩, ⟨0, 1⟩, ⟨1, 1⟩, ⟨1, 0⟩, ⟨0, 0⟩]⟩

/-- The unit square polygon produced from `squareWay`. -/
def squarePoly : Poly :=
  ⟨[(0, 0), (1, 0), (1, 1), (0, 1), (0, 0)]⟩

/-- A single open way, the spec's non-closed scenario:
(0,0) - (1,0) - (1,1). -/
def openWay : WayElement :=
  ⟨some "way", [⟨0, 0⟩, ⟨0, 1⟩, ⟨1, 1⟩]⟩

/-! ## Theorems -/

/-- A list that is not nil has `isEmpty = false`. -/
theorem isEmpty_false_of_ne_nil {α : Type} (l : List α) (h : l ≠ []) :
    l.isEmpty = false := by
  cases l with
  | nil => exact absurd rfl h
  | cons a t => rfl

/-- A non-empty way list produces a non-empty element list. -/
theorem ways_isEmpty_false (ways : List WayElement) (h : wayLines ways ≠ []) :
    ways.isEmpty = false := by
  cases ways with
  | nil => exact absurd rfl h
  | cons a l => rfl

/-- Merging never empties a non-empty line list. -/
theorem linemergeAux_ne_nil (fuel : ℕ) (ls : List Line) (h : ls ≠ []) :
    linemergeAux fuel ls ≠ [] := by
  induction fuel generalizing ls with
  | zero => exact h
  | succ f ih =>
    unfold linemergeAux
    cases hm : mergeOnce ls with
    | none => exact h
    | some ls2 =>
      apply ih
      unfold mergeOnce at hm
      cases hj : findJoin ls with
      | none => rw [hj] at hm; exact absurd hm (by simp)
      | some t =>
        obtain ⟨i, j, p⟩ := t
        rw [hj] at hm
        injection hm with hm
        rw [← hm]
        exact List.cons_ne_nil _ _

/-- `linemerge` of a non-empty line list is non-empty. -/
theorem linemerge_ne_nil (ls : List Line) (h : ls ≠ []) : linemerge ls ≠ [] :=
  linemergeAux_ne_nil ls.length ls h

/-- A line whose first and last coordinates differ is not a simple closed
ring. -/
theorem ringSimpleClosed_open (l : Line) (h : l.head? ≠ l.getLast?) :
    ringSimpleClosed l = false := by
  have hb : (l.head? == l.getLast?) = false := by
    simp [h]
  simp [ringSimpleClosed, hb]

/-- A single non-closed line polygonizes to nothing. -/
theorem polygonizeModel_single_open (l : Line) (h : l.head? ≠ l.getLast?) :
    polygonizeModel [l] = [] := by
  simp [polygonizeModel, polyIsValid, ringSimpleClosed_open l h]

open Classical in
/-- The fold underlying `maxByLength` returns one of its candidates. -/
theorem foldl_longest_mem (xs : List Line) (x : Line) :
    xs.foldl (fun acc l => if pathLength acc < pathLength l then l else acc) x
      ∈ x :: xs := by
  induction xs generalizing x with
  | nil => simp
  | cons y ys ih =>
    have h := ih (if pathLength x < pathLength y then y else x)
    simp only [List.foldl_cons]
    rcases List.mem_cons.mp h with h1 | h1
    · rw [h1]
      by_cases hc : pathLength x < pathLength y
      · rw [if_pos hc]
        exact List.mem_cons_of_mem _ (List.mem_cons_self _ _)
      · rw [if_neg hc]
        exact List.mem_cons_self _ _
    · exact List.mem_cons_of_mem _ (List.mem_cons_of_mem _ h1)

open Classical in
/-- The fold underlying `maxByLength` dominates every candidate's path
length. -/
theorem foldl_longest_le (xs : List Line) (x : Line) :
    ∀ l ∈ x :: xs,
      pathLength l
        ≤ pathLength
            (xs.foldl (fun acc l => if pathLength acc < pathLength l then l else acc) x) := by
  induction xs generalizing x with
  | nil =>
    intro l hl
    simp at hl
    rw [hl]
    simp
  | cons y ys ih =>
    intro l hl
    simp only [List.foldl_cons]
    have hx : pathLength x ≤ pathLength (if pathLength x < pathLength y then y else x) := by
      by_cases hc : pathLength x < pathLength y
      · rw [if_pos hc]; exact le_of_lt hc
      · rw [if_neg hc]
    have hy : pathLength y ≤ pathLength (if pathLength x < pathLength y then y else x) := by
      by_cases hc : pathLength x < pathLength y
      · rw [if_pos hc]
      · rw [if_neg hc]; exact le_of_not_lt hc
    have hacc := ih (if pathLength x < pathLength y then y else x)
    rcases List.mem_cons.mp hl with h1 | h1
    · subst h1
      exact le_trans hx (hacc _ (List.mem_cons_self _ _))
    · rcases List.mem_cons.mp h1 with h2 | h2
      · subst h2
        exact le_trans hy (hacc _ (List.mem_cons_self _ _))
      · exact hacc l (List.mem_cons_of_mem _ h2)

/-- The selected longest line is one of the merged lines. -/
theorem maxByLength_mem (ls : List Line) (h : ls ≠ []) : maxByLength ls ∈ ls := by
  cases ls with
  | nil => exact absurd rfl h
  | cons x xs => exact foldl_longest_mem xs x

/-- The selected longest line has maximal Euclidean path length. -/
theorem maxByLength_le (ls : List Line) :
    ∀ l ∈ ls, pathLength l ≤ pathLength (maxByLength ls) := by
  cases ls with
  | nil => intro l hl; simp at hl
  | cons x xs => exact fun l hl => foldl_longest_le xs x l hl

/-- C6: `delete_city_from_json` returns false when the cache document or the
city key is absent (leaving the store as it was); when the document is a
mapping containing the key, it returns true, a subsequent get no longer
contains that key, and every entry under a different key is untouched. -/
theorem C6_delete_city (entries : List (String × String)) (city : String) :
    delete_city_from_json none city = (none, false)
    ∧ (¬ city ∈ entries.map Prod.fst →
        delete_city_from_json (some (JDoc.obj entries)) city
          = (some (JDoc.obj entries), false))
    ∧ (city ∈ entries.map Prod.fst →
        (delete_city_from_json (some (JDoc.obj entries)) city).2 = true
        ∧ (delete_city_from_json (some (JDoc.obj entries)) city).1
            = some (JDoc.obj (entries.filter (fun p => p.1 != city)))
        ∧ ¬ city ∈ (entries.filter (fun p => p.1 != city)).map Prod.fst
        ∧ (∀ k v, k ≠ city →
            ((k, v) ∈ entries.filter (fun p => p.1 != city) ↔ (k, v) ∈ entries))) := by
  refine ⟨rfl, fun h => ?_, fun h => ⟨?_, ?_, ?_, ?_⟩⟩
  · simp [delete_city_from_json, h]
  · simp [delete_city_from_json, h]
  · simp [delete_city_from_json, h]
  · simp [List.mem_map, List.mem_filter]
  · intro k v hk
    simp [List.mem_filter, hk]

/-- Witness for C6 at a two-city cache: deleting "a" succeeds, removes only
"a" and keeps "b". -/
theorem C6_delete_city_witness :
    (delete_city_from_json (some (JDoc.obj [("a", "1"), ("b", "2")])) "a").2 = true
    ∧ (delete_city_from_json (some (JDoc.obj [("a", "1"), ("b", "2")])) "a").1
        = some (JDoc.obj ([("a", "1"), ("b", "2")].filter (fun p => p.1 != "a")))
    ∧ ¬ "a" ∈ (([("a", "1"), ("b", "2")].filter (fun p => p.1 != "a")).map Prod.fst)
    ∧ (∀ k v, k ≠ "a" →
        ((k, v) ∈ [("a", "1"), ("b", "2")].filter (fun p => p.1 != "a")
          ↔ (k, v) ∈ [("a", "1"), ("b", "2")])) :=
  (C6_delete_city [("a", "1"), ("b", "2")] "a").2.2 (by decide)

/-- C9 counterexample: a cached document that parses to a non-mapping (for
example a JSON array) is NOT deleted: `delete_city_from_json` returns false
and leaves the key as it was, so the claim that a non-mapping document also
triggers the whole-key delete is false. -/
theorem C9_counterexample :
    (delete_city_from_json (some JDoc.nonobj) "x").1 = some JDoc.nonobj
    ∧ (delete_city_from_json (some JDoc.nonobj) "x").1 ≠ none
    ∧ (delete_city_from_json (some JDoc.nonobj) "x").2 = false := by
  refine ⟨rfl, ?_, rfl⟩
  simp [delete_city_from_json]

/-- C9 amended: only when `json.loads` raises does `delete_city_from_json`
delete the entire cache key — discarding every city's entry — and return
false (so the "other keys are unchanged" frame fails there); a document that
parses to a non-mapping yields false with the store untouched. -/
theorem C9_corrupt_document (city : String) :
    delete_city_from_json (some JDoc.malformed) city = (none, false)
    ∧ delete_city_from_json (some JDoc.nonobj) city = (some JDoc.nonobj, false) :=
  ⟨rfl, rfl⟩

/-- C8: before init, and after close from any initialized state, every
public facade operation of the Overpass client and of the cache store fails
fast with the "not initialized" error of `_require_impl` and performs no
call on the underlying implementation. -/
theorem C8_not_initialized (s s0 : FacadeState)
    (h : s = facadeStart
      ∨ (s0.isInitialized = true ∧ s0.impl ≠ none ∧ s = (facadeClose s0).1)) :
    require_impl s = Except.error FacadeErr.notInitialized
    ∧ facadeOperation s = (Except.error FacadeErr.notInitialized, []) := by
  have hs : s.impl = none ∨ s.isInitialized = false := by
    rcases h with h | ⟨h1, h2, h3⟩
    · subst h; exact Or.inl rfl
    · have : facadeClose s0 = (⟨none, false⟩, [ImplCall.implClose]) := by
        simp [facadeClose, h1, h2]
      rw [this] at h3
      subst h3; exact Or.inl rfl
  constructor
  · simp [require_impl, hs]
  · simp [facadeOperation, require_impl, hs]

/-- Witness for C8 at the fresh (never-initialized) facade state. -/
theorem C8_not_initialized_witness :
    require_impl facadeStart = Except.error FacadeErr.notInitialized
    ∧ facadeOperation facadeStart = (Except.error FacadeErr.notInitialized, []) :=
  C8_not_initialized facadeStart facadeStart (Or.inl rfl)

/-- C10: on both facades, init when already initialized and close when not
initialized are logged no-ops: the state (implementation handle and
initialized flag) is unchanged and the underlying implementation is not
called. -/
theorem C10_idempotent_lifecycle (s : FacadeState) :
    (s.isInitialized = true ∧ s.impl ≠ none → facadeInit s = (s, []))
    ∧ (s.isInitialized = false ∨ s.impl = none → facadeClose s = (s, [])) := by
  constructor
  · intro h
    simp [facadeInit, h]
  · intro h
    rcases h with h | h <;> simp [facadeClose, h]

/-- Witness for C10: init on an initialized state and close on the fresh
state are both no-ops. -/
theorem C10_idempotent_lifecycle_witness :
    facadeInit ⟨some (), true⟩ = (⟨some (), true⟩, [])
    ∧ facadeClose facadeStart = (facadeStart, []) :=
  ⟨(C10_idempotent_lifecycle ⟨some (), true⟩).1 (by simp),
   (C10_idempotent_lifecycle facadeStart).2 (Or.inl rfl)⟩

/-- C2 counterexample: with the configured default of 3 retry attempts, a
single timeout on the very first request already surfaces to the caller —
the client performs exactly one HTTP request and re-raises, so a single
connect/timeout failure propagates even though attempts remain. -/
theorem C2_counterexample :
    (executeOnce true timeoutWorld 0).1 = Except.error OverpassError.connectionOrTimeout
    ∧ requestCount (executeOnce true timeoutWorld 0).2 = 1
    ∧ 1 < overpass_retry_attempts := by
  refine ⟨rfl, by decide, by decide⟩

/-- C2 amended: on a connect or timeout failure the initialized client logs
and immediately re-raises after exactly one HTTP request: no retry, no
backoff sleep; the configured attempt count and backoff are never consulted
(the source marks retry/backoff as future work). -/
theorem C2_no_retry (w : ℕ → HttpOutcome) (i : ℕ)
    (h : w i = HttpOutcome.timeoutErr ∨ w i = HttpOutcome.connectErr) :
    executeOnce true w i
      = (Except.error OverpassError.connectionOrTimeout, [ClientEvent.httpRequest]) := by
  rcases h with h | h <;> simp [executeOnce, h]

/-- Witness for C2 at a world whose second request times out. -/
theorem C2_no_retry_witness :
    executeOnce true timeoutWorld 1
      = (Except.error OverpassError.connectionOrTimeout, [ClientEvent.httpRequest]) :=
  C2_no_retry timeoutWorld 1 (Or.inl rfl)

/-- Each initialized `execute` call issues exactly one HTTP request,
whatever its outcome. -/
theorem executeOnce_events (w : ℕ → HttpOutcome) (i : ℕ) :
    (executeOnce true w i).2 = [ClientEvent.httpRequest] := by
  cases h : w i <;> simp [executeOnce, h]

/-- C7 amended: the client enforces no request rate limit at all: `n`
sequential calls issue `n` HTTP requests with zero deliberate delay between
them, whatever each request's outcome; the configured requests-per-second
ceiling is never consulted. -/
theorem C7_no_rate_limit (w : ℕ → HttpOutcome) (n : ℕ) :
    requestCount (runCalls true w n) = n
    ∧ elapsedSleep (runCalls true w n) = 0 := by
  induction n with
  | zero => exact ⟨rfl, rfl⟩
  | succ m ih =>
    have he := executeOnce_events w m
    constructor
    · simp [runCalls, requestCount, he] at ih ⊢
      simp [ih.1]
    · simp [runCalls, elapsedSleep, he] at ih ⊢
      exact ih.2

/-- C7 counterexample: five queries against the default 1 request/second
configuration all complete — five requests with zero elapsed delay, more
than the two the claim allows inside a 2-second window — because no limiter
exists in the code. -/
theorem C7_counterexample :
    overpass_rps_limit = 1
    ∧ requestCount (runCalls true okWorld 5) = 5
    ∧ elapsedSleep (runCalls true okWorld 5) = 0
    ∧ ¬ (requestCount (runCalls true okWorld 5) ≤ 2) := by
  have htr : runCalls true okWorld 5 = List.replicate 5 ClientEvent.httpRequest := by
    decide
  refine ⟨rfl, ?_, ?_, ?_⟩
  · rw [htr]; decide
  · rw [htr]; simp [elapsedSleep]
  · rw [htr]; decide

/-- C1 counterexample: the closed figure-eight way merges to one closed line
that polygonizes to zero polygons, so the claim demands the force-closed
polygon; the code instead rejects it as invalid and returns null. -/
theorem C1_counterexample :
    wayLines [figureEightWay] ≠ []
    ∧ polygonizeModel (linemerge (wayLines [figureEightWay])) = []
    ∧ (maxByLength (linemerge (wayLines [figureEightWay]))).head?
        = (maxByLength (linemerge (wayLines [figureEightWay]))).getLast?
    ∧ parse_ways_to_geometry plainOps [figureEightWay] = none := by
  have hm : linemerge (wayLines [figureEightWay])
      = [[(0, 0), (2, 2), (2, 0), (0, 2), (0, 0)]] := by decide
  refine ⟨by decide, by decide, ?_, by decide⟩
  rw [hm]
  rfl

/-- C1 amended: when polygon assembly yields zero polygons, the code selects
the merged line maximising total Euclidean path length in coordinate units
(first maximum on ties), and returns it force-closed as one polygon exactly
when it is flagged a ring or its first and last coordinates coincide AND the
force-closed polygon passes the validity check; otherwise it returns null.
In particular a way set merging into a single non-closed line yields
null. -/
theorem C1_fallback_behavior (ops : GeomOps) (ways : List WayElement) :
    (wayLines ways ≠ [] →
      polygonizeModel (linemerge (wayLines ways)) = [] →
      maxByLength (linemerge (wayLines ways)) ∈ linemerge (wayLines ways)
        ∧ (∀ l ∈ linemerge (wayLines ways),
            pathLength l ≤ pathLength (maxByLength (linemerge (wayLines ways))))
        ∧ parse_ways_to_geometry ops ways =
            (if (isRing (maxByLength (linemerge (wayLines ways)))
                  || ((maxByLength (linemerge (wayLines ways))).head?
                      == (maxByLength (linemerge (wayLines ways))).getLast?))
                && polyIsValid ⟨closeRing (maxByLength (linemerge (wayLines ways)))⟩
             then some (Geom.poly ⟨closeRing (maxByLength (linemerge (wayLines ways)))⟩)
             else none))
    ∧ (∀ l, linemerge (wayLines ways) = [l] → l.head? ≠ l.getLast? →
        parse_ways_to_geometry ops ways = none) := by
  constructor
  · intro hl hp
    have hw : ways.isEmpty = false := ways_isEmpty_false ways hl
    have hle : (wayLines ways).isEmpty = false := isEmpty_false_of_ne_nil _ hl
    have hpe : (polygonizeModel (linemerge (wayLines ways))).isEmpty = true := by
      rw [hp]; rfl
    refine ⟨maxByLength_mem _ (linemerge_ne_nil _ hl), maxByLength_le _, ?_⟩
    rw [parse_ways_to_geometry]
    rw [hw, hle, hpe]
    simp only [Bool.false_eq_true, if_false, if_true]
    cases hab : (isRing (maxByLength (linemerge (wayLines ways)))
        || ((maxByLength (linemerge (wayLines ways))).head?
            == (maxByLength (linemerge (wayLines ways))).getLast?)) with
    | false => simp [hab]
    | true =>
      cases hc : polyIsValid ⟨closeRing (maxByLength (linemerge (wayLines ways)))⟩ with
      | false => simp [hab, hc]
      | true => simp [hab, hc]
  · intro l hml hopen
    have hl : wayLines ways ≠ [] := by
      intro hnil
      rw [hnil] at hml
      exact absurd hml (by simp [linemerge, linemergeAux])
    have hw : ways.isEmpty = false := ways_isEmpty_false ways hl
    have hle : (wayLines ways).isEmpty = false := isEmpty_false_of_ne_nil _ hl
    have hp : polygonizeModel (linemerge (wayLines ways)) = [] := by
      rw [hml]; exact polygonizeModel_single_open l hopen
    have hpe : (polygonizeModel (linemerge (wayLines ways))).isEmpty = true := by
      rw [hp]; rfl
    have hmax : maxByLength (linemerge (wayLines ways)) = l := by
      rw [hml]
      rfl
    have hbeq : (l.head? == l.getLast?) = false := by simp [hopen]
    have hring : isRing l = false := ringSimpleClosed_open l hopen
    rw [parse_ways_to_geometry]
    rw [hw, hle, hpe, hmax]
    simp [hbeq, hring]

/-- Witness for C1 on the spec's own scenario: the single open way
(0,0)-(1,0)-(1,1) reconstructs to null. -/
theorem C1_fallback_behavior_witness :
    parse_ways_to_geometry plainOps [openWay] = none :=
  (C1_fallback_behavior plainOps [openWay]).2 [(0, 0), (1, 0), (1, 1)]
    (by decide) (by decide)

/-- C4: after per-polygon repair, a single surviving geometry is returned
as-is; several survivors are unioned, a union degenerating to one polygon is
returned as that polygon, and a multi-polygon union is returned as the
multi-polygon of its parts. -/
theorem C4_combine (ops : GeomOps) (ways : List WayElement)
    (hl : wayLines ways ≠ [])
    (hp : polygonizeModel (linemerge (wayLines ways)) ≠ []) :
    (∀ g, repairStage ops (polygonizeModel (linemerge (wayLines ways))) = [g] →
        parse_ways_to_geometry ops ways = some g)
    ∧ (∀ g1 g2 gs u,
        repairStage ops (polygonizeModel (linemerge (wayLines ways))) = g1 :: g2 :: gs →
        ops.unaryUnion (g1 :: g2 :: gs) = Geom.poly u →
        parse_ways_to_geometry ops ways = some (Geom.poly u))
    ∧ (∀ g1 g2 gs us,
        repairStage ops (polygonizeModel (linemerge (wayLines ways))) = g1 :: g2 :: gs →
        ops.unaryUnion (g1 :: g2 :: gs) = Geom.multi us →
        parse_ways_to_geometry ops ways = some (Geom.multi us)) := by
  have hw : ways.isEmpty = false := ways_isEmpty_false ways hl
  have hle : (wayLines ways).isEmpty = false := isEmpty_false_of_ne_nil _ hl
  have hpe : (polygonizeModel (linemerge (wayLines ways))).isEmpty = false :=
    isEmpty_false_of_ne_nil _ hp
  refine ⟨?_, ?_, ?_⟩
  · intro g hg
    simp [parse_ways_to_geometry, hw, hle, hpe, hg]
  · intro g1 g2 gs u hg hu
    simp [parse_ways_to_geometry, hw, hle, hpe, hg, hu]
  · intro g1 g2 gs us hg hu
    simp [parse_ways_to_geometry, hw, hle, hpe, hg, hu]

/-- Witness for C4 on the closed unit square way: one valid polygon remains
after repair and is returned as-is. -/
theorem C4_combine_witness :
    parse_ways_to_geometry plainOps [squareWay] = some (Geom.poly squarePoly) :=
  (C4_combine plainOps [squareWay] (by decide) (by decide)).1
    (Geom.poly squarePoly) (by decide)

/-- C5: after at most one buffer(0) repair, a bare polygon is returned
wrapped as a one-element multi-polygon, a multi-polygon is returned as such,
any other shape yields null rather than raising, and every non-null output
is the WKT of a multi-polygon (it starts with "MULTIPOLYGON", never a bare
polygon text). -/
theorem C5_normalize (ops : GeomOps) (geom : Geom) :
    (∀ p, (if !(geomIsValid geom) then ops.buffer0 geom else geom) = Geom.poly p →
        normalize_geometry ops geom = some (wktOfMulti [p]))
    ∧ (∀ ps, (if !(geomIsValid geom) then ops.buffer0 geom else geom) = Geom.multi ps →
        normalize_geometry ops geom = some (wktOfMulti ps))
    ∧ ((if !(geomIsValid geom) then ops.buffer0 geom else geom) = Geom.gother →
        normalize_geometry ops geom = none)
    ∧ (∀ s, normalize_geometry ops geom = some s →
        ∃ ps rest, s = wktOfMulti ps ∧ s = "MULTIPOLYGON " ++ rest) := by
  refine ⟨?_, ?_, ?_, ?_⟩
  · intro p h
    rw [normalize_geometry, h]
  · intro ps h
    rw [normalize_geometry, h]
  · intro h
    rw [normalize_geometry, h]
  · intro s h
    rw [normalize_geometry] at h
    cases hg : (if !(geomIsValid geom) then ops.buffer0 geom else geom) with
    | poly p =>
      rw [hg] at h
      simp only [Option.some.injEq] at h
      exact ⟨[p], _, h.symm, by rw [← h]; rfl⟩
    | multi ps =>
      rw [hg] at h
      simp only [Option.some.injEq] at h
      exact ⟨ps, _, h.symm, by rw [← h]; rfl⟩
    | gother =>
      rw [hg] at h
      exact absurd h (by simp)

/-- Witness for C5: a valid bare polygon normalizes to the one-element
multi-polygon WKT. -/
theorem C5_normalize_witness :
    normalize_geometry plainOps (Geom.poly squarePoly) = some (wktOfMulti [squarePoly]) :=
  (C5_normalize plainOps (Geom.poly squarePoly)).1 squarePoly (by decide)

/-- The Python truthiness filter is the first non-empty element of the
optional value seen as a list. -/
theorem pyTruthy_eq_find (o : Option String) :
    pyTruthy o = o.toList.find? (fun s => s != "") := by
  cases o with
  | none => rfl
  | some s =>
    by_cases h : s = ""
    · simp [pyTruthy, List.find?, h]
    · have hb : (s != "") = true := by simp [h]
      simp [pyTruthy, List.find?, h, hb]

/-- The truthiness filter distributes over the Python `or` chain as an
`Option.or`. -/
theorem pyTruthy_orStr (a b : Option String) :
    pyTruthy (orStr a b) = (pyTruthy a).or (pyTruthy b) := by
  cases a with
  | none => simp [orStr, pyTruthy]
  | some s =>
    by_cases h : s = "" <;> simp [orStr, pyTruthy, h]

/-- filterMap over a cons seen through `Option.toList`. -/
theorem filterMap_cons_toList {α β : Type} (f : α → Option β) (k : α) (ks : List α) :
    (k :: ks).filterMap f = (f k).toList ++ ks.filterMap f := by
  cases h : f k <;> simp [List.filterMap_cons, h]

/-- The source's name chain followed by the truthiness filter equals the
first non-empty value over the ordered key list. -/
theorem pyTruthy_resolveName (t : List (String × String)) :
    pyTruthy (resolveName t)
      = ((["name", "name:ru", "official_name", "alt_name"].filterMap
          (fun k => tagsGet t k)).find? (fun s => s != "")) := by
  rw [resolveName, pyTruthy_orStr, pyTruthy_orStr, pyTruthy_orStr]
  rw [filterMap_cons_toList, filterMap_cons_toList, filterMap_cons_toList,
    filterMap_cons_toList]
  simp only [List.filterMap_nil, List.append_nil]
  rw [List.find?_append, List.find?_append, List.find?_append]
  rw [pyTruthy_eq_find, pyTruthy_eq_find, pyTruthy_eq_find, pyTruthy_eq_find]

/-- Per-element agreement between the loop body and the amended claim-side
selector. -/
theorem keepElement_eq_firstNonEmpty (e : OsmElement) :
    keepElement e = keepElementFirstNonEmpty e := by
  unfold keepElement keepElementFirstNonEmpty
  by_cases h1 : e.type_ = some "relation"
  · by_cases h2 : tagsGet e.tags "boundary" = some "administrative"
    · by_cases h3 : tagsGet e.tags "admin_level" = some "9"
          ∨ tagsGet e.tags "admin_level" = some "10"
      · simp only [h1, h2, h3, ne_eq, not_true_eq_false, if_false, not_false_eq_true,
          if_true, and_self, true_and]
        rw [pyTruthy_resolveName]
      · simp [h1, h2, h3]
    · simp [h1, h2]
  · simp [h1]

/-- C3 counterexample: on a relation whose primary name tag is present but
empty and whose localized name is "X", the code keeps the relation under
"X", while the claim's literal first-present-wins resolution yields the
empty primary name — the two extractors disagree. -/
theorem C3_counterexample :
    parse_districts_metadata [emptyNameElement]
      = [⟨some 1, some "relation", "X"⟩]
    ∧ extractDistrictsFirstPresent [emptyNameElement]
      = [⟨some 1, some "relation", ""⟩]
    ∧ parse_districts_metadata [emptyNameElement]
      ≠ extractDistrictsFirstPresent [emptyNameElement] := by
  refine ⟨by decide, by decide, by decide⟩

/-- C3 amended: the extractor keeps exactly the administrative relations at
admin_level 9 or 10, resolves the display name as the first NON-EMPTY value
over the ordered keys name, name:ru, official_name, alt_name (a relation
whose name tags are all absent or empty is dropped), preserves input order,
and distributes over concatenation, so duplicate names for distinct
relation ids stay separate entries. -/
theorem C3_extract (elements xs ys : List OsmElement) :
    parse_districts_metadata elements = extractDistrictsFirstNonEmpty elements
    ∧ parse_districts_metadata (xs ++ ys)
        = parse_districts_metadata xs ++ parse_districts_metadata ys := by
  constructor
  · unfold parse_districts_metadata extractDistrictsFirstNonEmpty
    have h : keepElement = keepElementFirstNonEmpty :=
      funext fun e => keepElement_eq_firstNonEmpty e
    rw [h]
  · unfold parse_districts_metadata
    exact List.filterMap_append xs ys keepElement

end Metrics
